import Mathlib

/-!
Verification development for the fuzzing harness in
ldap/servers/slapd/fuzzer.c (389-ds-base).

The file embeds the harness shallowly: every syscall outcome is supplied by
an explicit environment record, every externally visible action is recorded
in an event trace, and the mutable program state (the global driver
configuration, the diagnostic stream, the set of background threads) is an
explicit world value threaded through each operation.  The definitions are
translated statement by statement from fuzzer.c.
-/

namespace Fuzzer

/-- POSIX constant AF_INET6 (value 10 on Linux). -/
def AF_INET6 : Nat := 10

/-- POSIX constant SOCK_STREAM (value 1 on Linux). -/
def SOCK_STREAM : Nat := 1

/-- The libFuzzer maximum input length the harness configures (-max_len=60000). -/
def max_len : Nat := 60000

/-- htons: a 16-bit host value converted to network byte order, represented
host-independently as the pair of bytes as laid out in memory, most
significant byte first. -/
def htons (x : Nat) : Nat × Nat := ((x / 256) % 256, x % 256)

/-- The bytes inet_pton(AF_INET6, src, dst) writes for the one source string
this program uses: the string "::1" parses to the IPv6 loopback address,
fifteen zero bytes followed by a one.  On any other input the model returns
none, mirroring inet_pton leaving the destination untouched on failure. -/
def inet_pton_ipv6 (src : String) : Option (List Nat) :=
  if src = "::1" then some (List.replicate 15 0 ++ [1]) else none

/-- The struct sockaddr_in6 as fuzzServer builds it on the stack.  Every
field is an Option: none models a field the code never wrote, whose bytes
are therefore still stack garbage when the struct is handed to connect. -/
structure SockAddrIn6 where
  sin6_family : Option Nat
  sin6_port : Option (Nat × Nat)
  sin6_flowinfo : Option Nat
  sin6_addr : Option (List Nat)
  sin6_scope_id : Option Nat
  deriving DecidableEq, Repr

/-- The syscalls fuzzServer issues, in program order, with the arguments it
passes and, for socket, the descriptor the OS handed back. -/
inductive Event where
  | socketE (domain typ proto : Nat) (ret : Int)
  | connectE (fd : Int) (addr : SockAddrIn6)
  | sendE (fd : Int) (data : List Nat) (flags : Nat)
  | usleepE (micros : Nat)
  | closeE (fd : Int)
  deriving DecidableEq, Repr

/-- The outcomes the operating system chooses for the four syscalls of one
relay invocation: the descriptor returned by socket (-1 on failure) and the
return codes of connect, send and close (-1 on failure).  fuzzServer
receives these values but, as in the source, never inspects any of them. -/
structure SysEnv where
  socketRet : Int
  connectRet : Int
  sendRet : Int
  closeRet : Int
  deriving DecidableEq, Repr

/-- The mutable globals of fuzzer.c: the static argument array (with its
terminating null entry), the offset into it that args_ptr references, and
args_size. -/
structure Globals where
  arg_array : List (Option String)
  args_ptr : Nat
  args_size : Int
  deriving DecidableEq, Repr

/-- fuzzer.c lines 32..35: the active (uncommented) initializers of
arg_array, args_ptr and args_size. -/
def initGlobals : Globals :=
  { arg_array := [some "0", some "corpus", some "-max_len=60000",
                  some "-detect_leaks=0", some "-len_control=20", none],
    args_ptr := 0,
    args_size := 5 }

/-- The whole mutable state of the host process that the harness code could
in principle touch: the globals, the diagnostic stream contents, the number
of background driver threads started, and any buffer references the relay
might retain past a call. -/
structure World where
  globals : Globals
  stderrOut : List String
  threadsStarted : Nat
  retained : List (List Nat)
  deriving DecidableEq, Repr

/-- What one fuzzServer call produces: its int return value, the syscall
trace it performed, the contents of the caller-owned input buffer at the
moment the call returns, and the host state at the moment the call
returns. -/
structure RelayOutcome where
  ret : Int
  trace : List Event
  bufAfter : List Nat
  world : World
  deriving DecidableEq, Repr

/-- Shallow embedding of fuzzServer, fuzzer.c lines 10..24, translated
statement by statement.  Data is the byte contents of the buffer the driver
passes and Size the Size argument; send transmits Size bytes starting at
Data, hence the payload Data.take Size.  The return codes of socket,
connect, send and close come from env; the code binds none of the latter
three and branches on nothing, exactly as the source does.  The buffer is
const and never written; no statement mentions any global, so the world is
returned unchanged. -/
def fuzzServer (env : SysEnv) (Data : List Nat) (Size : Nat) (w : World) :
    RelayOutcome :=
  let ip : String := "::1"
  let port : Nat := 5555
  let server_addr : SockAddrIn6 := ⟨none, none, none, none, none⟩
  let sockfd : Int := env.socketRet
  let server_addr := { server_addr with sin6_family := some AF_INET6 }
  let server_addr := { server_addr with sin6_port := some (htons port) }
  let server_addr := { server_addr with sin6_addr :=
      (match inet_pton_ipv6 ip with
       | some bytes => some bytes
       | none => server_addr.sin6_addr) }
  { ret := 1,
    trace := [Event.socketE AF_INET6 SOCK_STREAM 0 sockfd,
              Event.connectE sockfd server_addr,
              Event.sendE sockfd (Data.take Size) 0,
              Event.usleepE 1000,
              Event.closeE sockfd],
    bufAfter := Data,
    world := w }

/-- The sockaddr_in6 value that fuzzServer hands to connect: family and port
and address written by the code, flow information and scope identifier never
written. -/
def relayAddr : SockAddrIn6 :=
  { sin6_family := some AF_INET6,
    sin6_port := some (htons 5555),
    sin6_flowinfo := none,
    sin6_addr := some (List.replicate 15 0 ++ [1]),
    sin6_scope_id := none }

/-- Extract the send operations from a trace: the descriptor and the payload
of each send, in order. -/
def sendsOf : List Event → List (Int × List Nat)
  | [] => []
  | Event.sendE fd data _ :: rest => (fd, data) :: sendsOf rest
  | _ :: rest => sendsOf rest

/-- The argument vector the driver actually reads through args_ptr and
args_size: args_size entries starting at the arg_array cell args_ptr points
to, with the null sentinel not among them. -/
def argsPassedToDriver (g : Globals) : List String :=
  ((g.arg_array.drop g.args_ptr).take g.args_size.toNat).filterMap id

/-- What the background thread routine does, as a trace. -/
inductive DriverEvent where
  | usleepE (micros : Nat)
  | runDriver (argc : Int) (argv : List String)
  deriving DecidableEq, Repr

/-- Shallow embedding of launchFuzzer2, fuzzer.c lines 37..40: sleep 15000
microseconds, then invoke LLVMFuzzerRunDriver on the global argument count
and vector, with fuzzServer as the harness entry point. -/
def launchFuzzer2 (g : Globals) : List DriverEvent :=
  [DriverEvent.usleepE 15000,
   DriverEvent.runDriver g.args_size (argsPassedToDriver g)]

/-- The actions the startup hook performs. -/
inductive HostEvent where
  | createThread (routine : String) (createRet : Int)
  | printStderr (msg : String)
  | joinThread (routine : String)
  deriving DecidableEq, Repr

/-- The confirmation line launchFuzzer writes to stderr. -/
def launchMsg : String := "fuzzing launched\n"

/-- Shallow embedding of launchFuzzer, fuzzer.c lines 42..46.  createRet is
the pthread_create return value the OS chooses (0 on success); the code
receives it and ignores it.  A new background thread running launchFuzzer2
exists exactly when creation succeeded; the confirmation message is printed
unconditionally; no join and no return-code check appears. -/
def launchFuzzer (createRet : Int) (w : World) : World × List HostEvent :=
  ({ w with
      threadsStarted := w.threadsStarted + (if createRet = 0 then 1 else 0),
      stderrOut := w.stderrOut ++ [launchMsg] },
   [HostEvent.createThread "launchFuzzer2" createRet,
    HostEvent.printStderr launchMsg])

/-- A concrete environment in which every syscall succeeds. -/
def env0 : SysEnv := { socketRet := 3, connectRet := 0, sendRet := 0, closeRet := 0 }

/-- A concrete environment for a target address with no listener: connect
and send fail with -1. -/
def envNoListener : SysEnv :=
  { socketRet := 3, connectRet := -1, sendRet := -1, closeRet := 0 }

/-- A concrete initial host state. -/
def world0 : World :=
  { globals := initGlobals, stderrOut := [], threadsStarted := 0, retained := [] }

/-- C1: for every input buffer and every Size with 0 ≤ Size ≤ max_len,
fuzzServer terminates (it is a total function) and returns the constant
success status 1, whatever the contents of the buffer and whatever outcomes
the OS chose for socket, connect, send and close. -/
theorem fuzzServer_returns_success (env : SysEnv) (Data : List Nat)
    (Size : Nat) (w : World) (hSize : Size ≤ max_len) :
    (fuzzServer env Data Size w).ret = 1 := rfl

/-- Witness for C1 at a concrete input. -/
theorem fuzzServer_returns_success_witness :
    (0 : Nat) ≤ max_len ∧ (fuzzServer env0 [] 0 world0).ret = 1 :=
  ⟨by decide, fuzzServer_returns_success env0 [] 0 world0 (by decide)⟩

/-- C2: with no listener at the target address (connect and send fail with
-1) fuzzServer still returns the success status 1, and neither its result
nor its syscall trace depends on the connect, send or close return codes:
no socket-level error code is checked or surfaced. -/
theorem fuzzServer_success_without_listener (Data : List Nat) (Size : Nat)
    (w : World) :
    (fuzzServer envNoListener Data Size w).ret = 1 ∧
    (∀ env : SysEnv,
      (fuzzServer env Data Size w).ret =
        (fuzzServer envNoListener Data Size w).ret) ∧
    (∀ env : SysEnv,
      (fuzzServer env Data Size w).trace =
        (fuzzServer { env with connectRet := -1, sendRet := -1,
                               closeRet := -1 } Data Size w).trace) :=
  ⟨rfl, fun _ => rfl, fun _ => rfl⟩

/-- C3: each fuzzServer invocation performs exactly this syscall sequence in
this order: a fresh AF_INET6 SOCK_STREAM socket, connect to the address
[::1] port 5555 (relayAddr carries htons 5555 and the IPv6 loopback bytes),
exactly one send of the full buffer (Data has exactly Size bytes and the
whole of it is the payload; nothing is retried), usleep of 1000
microseconds (one millisecond), then close. -/
theorem fuzzServer_step_sequence (env : SysEnv) (Data : List Nat)
    (Size : Nat) (w : World) (hSize : Data.length = Size) :
    (fuzzServer env Data Size w).trace =
      [Event.socketE AF_INET6 SOCK_STREAM 0 env.socketRet,
       Event.connectE env.socketRet relayAddr,
       Event.sendE env.socketRet Data 0,
       Event.usleepE 1000,
       Event.closeE env.socketRet] ∧
    relayAddr.sin6_port = some (htons 5555) ∧
    relayAddr.sin6_addr = some (List.replicate 15 0 ++ [1]) := by
  subst hSize
  refine ⟨?_, rfl, rfl⟩
  simp [fuzzServer, relayAddr, inet_pton_ipv6]

/-- Witness for C3 at a concrete two-byte buffer. -/
theorem fuzzServer_step_sequence_witness :
    ([7, 8] : List Nat).length = 2 ∧
    ((fuzzServer env0 [7, 8] 2 world0).trace =
      [Event.socketE AF_INET6 SOCK_STREAM 0 env0.socketRet,
       Event.connectE env0.socketRet relayAddr,
       Event.sendE env0.socketRet [7, 8] 0,
       Event.usleepE 1000,
       Event.closeE env0.socketRet] ∧
     relayAddr.sin6_port = some (htons 5555) ∧
     relayAddr.sin6_addr = some (List.replicate 15 0 ++ [1])) :=
  ⟨by decide, fuzzServer_step_sequence env0 [7, 8] 2 world0 (by decide)⟩

/-- C4: one invocation with buffer D1 of exactly S1 bytes performs exactly
one send whose payload is exactly D1 (no truncation), on the descriptor of
the invocation's own freshly opened socket (the trace starts with its own
socket call); the sends of two consecutive invocations stay two separate
sends with their separate payloads (no concatenation across invocations). -/
theorem fuzzServer_send_exact (env1 env2 : SysEnv) (D1 D2 : List Nat)
    (S1 S2 : Nat) (w1 w2 : World)
    (h1 : D1.length = S1) (h2 : D2.length = S2) :
    sendsOf (fuzzServer env1 D1 S1 w1).trace = [(env1.socketRet, D1)] ∧
    sendsOf ((fuzzServer env1 D1 S1 w1).trace ++
             (fuzzServer env2 D2 S2 w2).trace) =
      [(env1.socketRet, D1), (env2.socketRet, D2)] ∧
    (fuzzServer env1 D1 S1 w1).trace.head? =
      some (Event.socketE AF_INET6 SOCK_STREAM 0 env1.socketRet) := by
  subst h1; subst h2
  refine ⟨?_, ?_, rfl⟩ <;> simp [fuzzServer, sendsOf]

/-- Witness for C4 at two concrete buffers. -/
theorem fuzzServer_send_exact_witness :
    ([7] : List Nat).length = 1 ∧ ([9, 9] : List Nat).length = 2 ∧
    (sendsOf (fuzzServer env0 [7] 1 world0).trace =
      [(env0.socketRet, [7])] ∧
     sendsOf ((fuzzServer env0 [7] 1 world0).trace ++
              (fuzzServer envNoListener [9, 9] 2 world0).trace) =
      [(env0.socketRet, [7]), (envNoListener.socketRet, [9, 9])] ∧
     (fuzzServer env0 [7] 1 world0).trace.head? =
      some (Event.socketE AF_INET6 SOCK_STREAM 0 env0.socketRet)) :=
  ⟨by decide, by decide,
   fuzzServer_send_exact env0 envNoListener [7] [9, 9] 1 2 world0 world0
     (by decide) (by decide)⟩

/-- C5: launchFuzzer2 hands LLVMFuzzerRunDriver exactly the fixed
five-element configuration: the operating-mode token "0", the corpus
directory name "corpus", -max_len=60000, -detect_leaks=0 and
-len_control=20, with an argument count of 5. -/
theorem launchFuzzer2_driver_args :
    launchFuzzer2 initGlobals =
      [DriverEvent.usleepE 15000,
       DriverEvent.runDriver 5
         ["0", "corpus", "-max_len=60000", "-detect_leaks=0",
          "-len_control=20"]] ∧
    initGlobals.args_size = 5 ∧
    argsPassedToDriver initGlobals =
      ["0", "corpus", "-max_len=60000", "-detect_leaks=0",
       "-len_control=20"] := by
  refine ⟨?_, rfl, ?_⟩ <;> rfl

/-- C6: one launchFuzzer call with successful thread creation starts
exactly one new background thread and appends exactly one confirmation
message to stderr; a second call starts a second independent thread (no
de-duplication guard); for any creation return code the action trace is
exactly a createThread of launchFuzzer2 followed by the stderr print and
nothing after it (so the hook never joins the thread and returns right
after printing), and the printed output is the same whatever the creation
return code was (the code never checks it). -/
theorem launchFuzzer_fire_and_forget (w : World) (r r2 : Int) :
    (launchFuzzer 0 w).1.threadsStarted = w.threadsStarted + 1 ∧
    (launchFuzzer 0 w).1.stderrOut = w.stderrOut ++ [launchMsg] ∧
    (launchFuzzer 0 (launchFuzzer 0 w).1).1.threadsStarted =
      w.threadsStarted + 2 ∧
    (launchFuzzer r w).2 =
      [HostEvent.createThread "launchFuzzer2" r,
       HostEvent.printStderr launchMsg] ∧
    HostEvent.joinThread "launchFuzzer2" ∉ (launchFuzzer r w).2 ∧
    (launchFuzzer r w).1.stderrOut = (launchFuzzer r2 w).1.stderrOut := by
  refine ⟨by simp [launchFuzzer], by simp [launchFuzzer], ?_, rfl, ?_, rfl⟩
  · simp [launchFuzzer]
  · simp [launchFuzzer]

/-- C7: the driver configuration (arg_array, args_ptr, args_size) is never
modified: the relay and the startup hook leave the globals component of the
world identical, so the argument list launchFuzzer2 would pass to the
driver is the same after any relay or startup-hook invocation as before. -/
theorem driver_config_immutable (env : SysEnv) (Data : List Nat)
    (Size : Nat) (w : World) (r : Int) :
    (fuzzServer env Data Size w).world.globals = w.globals ∧
    (launchFuzzer r w).1.globals = w.globals ∧
    argsPassedToDriver (launchFuzzer r w).1.globals =
      argsPassedToDriver w.globals ∧
    launchFuzzer2 (launchFuzzer r w).1.globals = launchFuzzer2 w.globals :=
  ⟨rfl, rfl, rfl, rfl⟩

/-- C8: a zero-length invocation follows the same path as any other: it
still opens the socket, connects, issues a zero-byte send, sleeps, closes,
and returns the success status 1. -/
theorem fuzzServer_zero_length (env : SysEnv) (w : World) :
    (fuzzServer env [] 0 w).ret = 1 ∧
    (fuzzServer env [] 0 w).trace =
      [Event.socketE AF_INET6 SOCK_STREAM 0 env.socketRet,
       Event.connectE env.socketRet relayAddr,
       Event.sendE env.socketRet [] 0,
       Event.usleepE 1000,
       Event.closeE env.socketRet] :=
  ⟨rfl, rfl⟩

/-- C9: fuzzServer changes nothing outside its own transient socket: the
input buffer contents are the same when the call returns, the whole world
(globals arg_array, args_ptr, args_size included, and the set of retained
buffer references) is returned unchanged. -/
theorem fuzzServer_frame (env : SysEnv) (Data : List Nat) (Size : Nat)
    (w : World) :
    (fuzzServer env Data Size w).bufAfter = Data ∧
    (fuzzServer env Data Size w).world = w ∧
    (fuzzServer env Data Size w).world.retained = w.retained ∧
    (fuzzServer env Data Size w).world.globals = w.globals :=
  ⟨rfl, rfl, rfl, rfl⟩

/-- C10: the sockaddr_in6 handed to connect has only family, port and
address written; sin6_flowinfo and sin6_scope_id are still unwritten stack
garbage (none) when connect reads the struct; and the descriptor returned
by socket flows into connect, send and close with no failure check: with
socket failing (descriptor -1) the trace still uses -1 in all three
calls. -/
theorem fuzzServer_uninit_fields_unchecked_fd (env : SysEnv)
    (Data : List Nat) (Size : Nat) (w : World) :
    relayAddr.sin6_flowinfo = none ∧
    relayAddr.sin6_scope_id = none ∧
    relayAddr.sin6_family = some AF_INET6 ∧
    relayAddr.sin6_port = some (htons 5555) ∧
    relayAddr.sin6_addr = some (List.replicate 15 0 ++ [1]) ∧
    (fuzzServer env Data Size w).trace =
      [Event.socketE AF_INET6 SOCK_STREAM 0 env.socketRet,
       Event.connectE env.socketRet relayAddr,
       Event.sendE env.socketRet (Data.take Size) 0,
       Event.usleepE 1000,
       Event.closeE env.socketRet] ∧
    (fuzzServer { env with socketRet := -1 } Data Size w).trace =
      [Event.socketE AF_INET6 SOCK_STREAM 0 (-1),
       Event.connectE (-1) relayAddr,
       Event.sendE (-1) (Data.take Size) 0,
       Event.usleepE 1000,
       Event.closeE (-1)] := by
  refine ⟨rfl, rfl, rfl, rfl, rfl, ?_, ?_⟩ <;>
    simp [fuzzServer, relayAddr, inet_pton_ipv6]

end Fuzzer
